import Mathlib

/-!
# Verification of the RIFT-0 DFA tokenizer and pattern-composition engine

Shallow embedding of the C sources under `src/rift-0/` of the `obinexus/rift`
repository, together with theorems settling the spec claims about them.

Two C translation units implement the tokenizer API with the same symbol
names; we embed both, in separate namespaces:
* `Rift.Rules` — `src/rift-0/src/core/tokenizer_rules.c`
* `Rift.Core`  — `src/rift-0/src/core/tokenizer.c`

C pointers that may be `NULL` are embedded as `Option`; machine integers are
`Nat` with explicit reductions modulo `2^w` where the C code truncates
(bitfield assignment, integer conversion).  Heap allocation is assumed to
succeed; error-message strings are not modelled (no claim mentions them).
-/

namespace Rift

/-! ## Token type enumeration (tokenizer_types.h / tokenizer_rules.h) -/

def TOKEN_UNKNOWN : Nat := 0
def TOKEN_IDENTIFIER : Nat := 1
def TOKEN_KEYWORD : Nat := 2
def TOKEN_LITERAL_NUMBER : Nat := 3
def TOKEN_LITERAL_STRING : Nat := 4
def TOKEN_OPERATOR : Nat := 5
def TOKEN_PUNCTUATION : Nat := 6
def TOKEN_WHITESPACE : Nat := 7
def TOKEN_COMMENT : Nat := 8
def TOKEN_EOF : Nat := 9
def TOKEN_ERROR : Nat := 10
def TOKEN_REGEX_START : Nat := 11
def TOKEN_REGEX_END : Nat := 12
def TOKEN_MAX : Nat := 255

/-! ## Token flags (stored in the `value` field) -/

def TOKEN_FLAG_NONE : Nat := 0x00
def TOKEN_FLAG_GLOBAL : Nat := 0x01
def TOKEN_FLAG_MULTILINE : Nat := 0x02
def TOKEN_FLAG_IGNORECASE : Nat := 0x04
def TOKEN_FLAG_TOPDOWN : Nat := 0x08
def TOKEN_FLAG_BOTTOMUP : Nat := 0x10
def TOKEN_FLAG_COMPOSED : Nat := 0x20
def TOKEN_FLAG_VALIDATED : Nat := 0x40
def TOKEN_FLAG_ERROR : Nat := 0x80

/-! ## Constants and limits (tokenizer_rules.h) -/

def RIFT_MAX_TOKEN_LENGTH : Nat := 4096
def RIFT_MAX_PATTERN_LENGTH : Nat := 1024
def RIFT_DEFAULT_TOKEN_CAPACITY : Nat := 1024

/-- Modelled from the spec: `RIFT_TOKENIZER_DEFAULT_CAPACITY` is referenced by
`tokenizer.c` but its `#define` is not among the sources under `src/`; the
spec only requires `create` to allocate positive output storage, so any
positive constant is faithful (no claim depends on its exact value). -/
def RIFT_TOKENIZER_DEFAULT_CAPACITY : Nat := 1024

/-! ## TokenTriplet (packed 32-bit bitfield: type:8, mem_ptr:16, value:8) -/

structure TokenTriplet where
  type : Nat
  mem_ptr : Nat
  value : Nat
deriving Repr, DecidableEq

/-- `rift_token_create` (tokenizer_rules.c:34).  The C parameters are
`uint8_t`, `uint16_t`, `uint8_t` and the bitfields are 8/16/8 bits wide, so
each field is the argument reduced modulo its width. -/
def rift_token_create (type mem_ptr value : Nat) : TokenTriplet :=
  { type := type % 256, mem_ptr := mem_ptr % 65536, value := value % 256 }

/-- The packed 32-bit memory image of a `TokenTriplet` (`type` occupies the
least significant byte per the `offsetof(TokenTriplet, type) == 0` static
assertion, `mem_ptr` the next 16 bits, `value` the top byte). -/
def TokenTriplet.toWord (t : TokenTriplet) : Nat :=
  t.type % 256 + (t.mem_ptr % 65536) * 256 + (t.value % 256) * 16777216

/-- Field projection from the packed 32-bit word (the decode direction of
the codec). -/
def TokenTriplet.ofWord (w : Nat) : TokenTriplet :=
  { type := w % 256, mem_ptr := w / 256 % 65536, value := w / 16777216 % 256 }

/-- `rift_token_is_valid` (tokenizer_rules.c:50).  `NULL` is `none`. -/
def rift_token_is_valid : Option TokenTriplet → Bool
  | none => false
  | some t =>
    if t.type ≥ TOKEN_MAX then false
    else if t.mem_ptr > RIFT_MAX_TOKEN_LENGTH then false
    else true

/-- `rift_token_get_flags` (tokenizer_rules.c:63): `token->value & 0xFF`. -/
def rift_token_get_flags : Option TokenTriplet → Nat
  | none => TOKEN_FLAG_NONE
  | some t => t.value % 256

/-- `rift_token_set_flags` (tokenizer_rules.c:69): writes
`(uint8_t)(flags & 0xFF)` into the `value` field; a `NULL` token is left
untouched.  The C function mutates through the pointer; we return the
updated pointee. -/
def rift_token_set_flags : Option TokenTriplet → Nat → Option TokenTriplet
  | none, _ => none
  | some t, flags => some { t with value := flags % 256 }

/-! ## DFA state machine (tokenizer_rules.c, `DFAState` of tokenizer_rules.h)

The C `DFAState` carries two state pointers (`next_state`, `fail_state`).
No code under `src/` ever assigns `fail_state` (it is only initialised to
`NULL` and read), and `rift_regex_compile` builds pure chains, so every
automaton constructible through the API is a finite tree; we embed the
pointer graph as a nested inductive with `Option` for `NULL`.  The
`match_count` statistics counter incremented by `rift_dfa_process_input`
does not affect control flow and is not modelled as mutable state. -/

inductive DFAState where
  | mk (state_id : Nat) (is_final : Bool) (is_start : Bool)
       (transition_char : Char) (next_state : Option DFAState)
       (fail_state : Option DFAState) (token_type : Nat)
deriving Repr

def DFAState.state_id : DFAState → Nat
  | .mk i _ _ _ _ _ _ => i

def DFAState.is_final : DFAState → Bool
  | .mk _ f _ _ _ _ _ => f

def DFAState.is_start : DFAState → Bool
  | .mk _ _ s _ _ _ _ => s

def DFAState.transition_char : DFAState → Char
  | .mk _ _ _ c _ _ _ => c

def DFAState.next_state : DFAState → Option DFAState
  | .mk _ _ _ _ n _ _ => n

def DFAState.fail_state : DFAState → Option DFAState
  | .mk _ _ _ _ _ f _ => f

def DFAState.token_type : DFAState → Nat
  | .mk _ _ _ _ _ _ t => t

/-- `rift_dfa_create_state` (tokenizer_rules.c:80): zero-initialised state
with the given id and final flag. -/
def rift_dfa_create_state (state_id : Nat) (is_final : Bool) : DFAState :=
  .mk state_id is_final false (Char.ofNat 0) none none TOKEN_UNKNOWN

/-- `rift_dfa_add_transition` (tokenizer_rules.c:97): installs the single
labelled edge on `s` (overwriting any previous one).  The C function
mutates `from`; we return the updated state. -/
def rift_dfa_add_transition (s t : DFAState) (transition_char : Char) : DFAState :=
  .mk s.state_id s.is_final s.is_start transition_char (some t) s.fail_state s.token_type

/-- `rift_dfa_process_input` (tokenizer_rules.c:109).  A `NULL` start (the
`!start || !input` guard) gives `NULL`.  Per character: follow the labelled
edge when the character matches and `next_state` is non-`NULL`, else the
fail edge when present, else return `NULL` ("No valid transition"). -/
def rift_dfa_process_input : Option DFAState → List Char → Option DFAState
  | none, _ => none
  | some s, [] => some s
  | some s, c :: cs =>
    match s.next_state with
    | some n =>
      if s.transition_char = c then rift_dfa_process_input (some n) cs
      else
        match s.fail_state with
        | some f => rift_dfa_process_input (some f) cs
        | none => none
    | none =>
      match s.fail_state with
      | some f => rift_dfa_process_input (some f) cs
      | none => none

/-- `rift_dfa_is_accepting_state` (tokenizer_rules.c:132):
`state && state->is_final`. -/
def rift_dfa_is_accepting_state : Option DFAState → Bool
  | none => false
  | some s => s.is_final

/-- `rift_dfa_get_token_type` (tokenizer_rules.c:137). -/
def rift_dfa_get_token_type : Option DFAState → Nat
  | none => TOKEN_UNKNOWN
  | some s => s.token_type

/-- Modelled from the spec (§4.2): the specification's
`run(start, input, length) -> AutomatonState` — total, "else stopping and
returning the last state reached (not necessarily final)".  Second
definition for the refinement comparison with `rift_dfa_process_input`;
transition selection follows the spec's words (labelled edge when the
character equals the state's transition character, else `fail` when
present, else stop). -/
def rift_run_spec : DFAState → List Char → DFAState
  | s, [] => s
  | s, c :: cs =>
    match s.next_state with
    | some n =>
      if s.transition_char = c then rift_run_spec n cs
      else
        match s.fail_state with
        | some f => rift_run_spec f cs
        | none => s
    | none =>
      match s.fail_state with
      | some f => rift_run_spec f cs
      | none => s

/-! ## R-syntax regex composition (tokenizer_rules.c) -/

structure RegexComposition where
  pattern : String
  pattern_length : Nat
  flags : Nat
  start_state : Option DFAState
  current_state : Option DFAState
  is_composed : Bool
deriving Repr

/-- The skip test of the compile loop (tokenizer_rules.c:243-247): the
character at index `i` is skipped when it is an `R` directly followed by a
double or single quote, or is itself a double or single quote. -/
def riftCompileSkip (cs : List Char) (len i : Nat) (c : Char) : Bool :=
  (c = 'R' && decide (i + 1 < len) &&
    (cs.getD (i + 1) (Char.ofNat 0) = '"' || cs.getD (i + 1) (Char.ofNat 0) = '\'')) ||
  c = '"' || c = '\''

/-- First labelled character of the remaining chain entries, `'\0'` when
none (a freshly created state keeps `transition_char = '\0'`). -/
def riftChainHeadChar : List (Char × Bool) → Char
  | [] => Char.ofNat 0
  | (c, _) :: _ => c

/-- The chain of states built by the compile loop from the kept characters
(each entry pairs the edge character with the `i == pattern_length - 1`
final flag of the state it leads to).  A state's outgoing label is the next
entry's character, installed by the following `rift_dfa_add_transition`;
the final-state `token_type := TOKEN_REGEX_END` assignment
(tokenizer_rules.c:258) applies to the last created state only. -/
def riftBuildChain : List (Char × Bool) → Nat → Option DFAState
  | [], _ => none
  | (_, fin) :: rest, sid =>
    some (.mk sid fin false (riftChainHeadChar rest) (riftBuildChain rest (sid + 1))
      none (if fin && rest.isEmpty then TOKEN_REGEX_END else TOKEN_UNKNOWN))

/-- `rift_regex_compile` (tokenizer_rules.c:207).  A `NULL` pattern is the
only failure (allocation is assumed to succeed); there is no emptiness or
length check.  The DFA is a chain over the non-skipped characters; the
state reached by the character at index `i` is final iff
`i = pattern_length - 1`. -/
def rift_regex_compile (pattern : Option String) (flags : Nat) : Option RegexComposition :=
  match pattern with
  | none => none
  | some p =>
    let cs := p.data
    let len := cs.length
    let kept := cs.enum.filterMap fun ic =>
      if riftCompileSkip cs len ic.1 ic.2 then none
      else some (ic.2, decide (ic.1 = len - 1))
    let startState : DFAState :=
      .mk 0 false true (riftChainHeadChar kept) (riftBuildChain kept 1) none TOKEN_UNKNOWN
    some
      { pattern := p
        pattern_length := len
        flags := flags
        start_state := some startState
        current_state := some startState
        is_composed := false }

/-- Shared body of the four `rift_regex_compose_*` functions
(tokenizer_rules.c:266-369): textual combination of the two patterns, union
of flags plus `TOKEN_FLAG_COMPOSED`, and a fresh single non-final start
state with no transitions ("Create composite DFA - simplified"). -/
def riftComposeWith (text : String) (a b : RegexComposition) : RegexComposition :=
  { pattern := text
    pattern_length := text.length
    flags := a.flags ||| b.flags ||| TOKEN_FLAG_COMPOSED
    start_state := some (rift_dfa_create_state 0 false)
    current_state := some (rift_dfa_create_state 0 false)
    is_composed := true }

/-- `rift_regex_compose_and` (tokenizer_rules.c:266): `(%s)&(%s)`. -/
def rift_regex_compose_and : Option RegexComposition → Option RegexComposition →
    Option RegexComposition
  | some a, some b =>
    some (riftComposeWith ("(" ++ a.pattern ++ ")&(" ++ b.pattern ++ ")") a b)
  | _, _ => none

/-- `rift_regex_compose_or` (tokenizer_rules.c:294): `(%s)|(%s)`. -/
def rift_regex_compose_or : Option RegexComposition → Option RegexComposition →
    Option RegexComposition
  | some a, some b =>
    some (riftComposeWith ("(" ++ a.pattern ++ ")|(" ++ b.pattern ++ ")") a b)
  | _, _ => none

/-- `rift_regex_compose_xor` (tokenizer_rules.c:320): `(%s)^(%s)`. -/
def rift_regex_compose_xor : Option RegexComposition → Option RegexComposition →
    Option RegexComposition
  | some a, some b =>
    some (riftComposeWith ("(" ++ a.pattern ++ ")^(" ++ b.pattern ++ ")") a b)
  | _, _ => none

/-- `rift_regex_compose_nand` (tokenizer_rules.c:346): `~((%s)&(%s))`. -/
def rift_regex_compose_nand : Option RegexComposition → Option RegexComposition →
    Option RegexComposition
  | some a, some b =>
    some (riftComposeWith ("~((" ++ a.pattern ++ ")&(" ++ b.pattern ++ "))") a b)
  | _, _ => none

/-- `rift_regex_match` (tokenizer_rules.c:372): run the pattern's DFA over
the subject and report acceptance; `NULL` regex or input gives `false`. -/
def rift_regex_match (regex : Option RegexComposition) (input : Option (List Char)) : Bool :=
  match regex, input with
  | some r, some inp => rift_dfa_is_accepting_state (rift_dfa_process_input r.start_state inp)
  | _, _ => false

/-! ## C character classifiers (ctype.h, C locale) used by tokenizer_rules.c -/

def riftIsSpace (c : Char) : Bool :=
  c = ' ' || c = '\t' || c = '\n' || c = Char.ofNat 11 || c = Char.ofNat 12 || c = '\r'

def riftIsAlpha (c : Char) : Bool :=
  ('a' ≤ c && c ≤ 'z') || ('A' ≤ c && c ≤ 'Z')

def riftIsDigit (c : Char) : Bool :=
  '0' ≤ c && c ≤ '9'

/-! ## Tokenizer session, tokenizer_rules.c variant (`Rift.Rules`)

`src/rift-0/src/core/tokenizer_rules.c:419-527`.  The context fields a
claim never observes (compositions, pattern cache, statistics, mutex) are
omitted; the error-message buffer is reduced to the `has_error` flag. -/

namespace Rules

structure TokenizerContext where
  input_buffer : Option (List Char)
  buffer_length : Nat
  current_position : Nat
  line_number : Nat
  column_number : Nat
  token_capacity : Nat
  token_count : Nat
  token_buffer : List TokenTriplet
  has_error : Bool
deriving Repr

/-- `rift_tokenizer_create` (tokenizer_rules.c:419): capacity is the
argument when positive, else `RIFT_DEFAULT_TOKEN_CAPACITY`. -/
def rift_tokenizer_create (initial_capacity : Nat) : TokenizerContext :=
  { input_buffer := none
    buffer_length := 0
    current_position := 0
    line_number := 1
    column_number := 1
    token_capacity := if initial_capacity > 0 then initial_capacity
      else RIFT_DEFAULT_TOKEN_CAPACITY
    token_count := 0
    token_buffer := []
    has_error := false }

/-- `rift_tokenizer_set_input` (tokenizer_rules.c:456); the C caller passes
the buffer and its length, here the list and its length. -/
def rift_tokenizer_set_input (ctx : TokenizerContext) (input : List Char) : TokenizerContext :=
  { ctx with
    input_buffer := some input
    buffer_length := input.length
    current_position := 0
    line_number := 1
    column_number := 1
    token_count := 0
    has_error := false }

/-- The `while (ctx->current_position < ctx->buffer_length)` loop of
`rift_tokenizer_process` (tokenizer_rules.c:477-518), acting on the loop
state.  Returns the context after the loop together with the early-return
flag (`false` on token-buffer overflow).  The loop advances
`current_position` by exactly one per iteration, so it runs at most
`buffer_length − current_position` times; `fuel` is structural-recursion
fuel, and every caller passes `buffer_length`, which never runs out before
the loop condition turns false (when it reaches 0 the condition is already
false and both exits coincide). -/
def processLoop (inp : List Char) : Nat → TokenizerContext → Bool × TokenizerContext
  | 0, ctx => (true, ctx)
  | fuel + 1, ctx =>
    if ctx.current_position < ctx.buffer_length then
      if ctx.token_count ≥ ctx.token_capacity then
        (false, { ctx with has_error := true })
      else
        let ch := inp.getD ctx.current_position (Char.ofNat 0)
        if riftIsSpace ch then
          if ch = '\n' then
            processLoop inp fuel { ctx with
              line_number := ctx.line_number + 1
              column_number := 1
              current_position := ctx.current_position + 1 }
          else
            processLoop inp fuel { ctx with
              column_number := ctx.column_number + 1
              current_position := ctx.current_position + 1 }
        else
          let ty := if riftIsAlpha ch then TOKEN_IDENTIFIER
            else if riftIsDigit ch then TOKEN_LITERAL_NUMBER
            else TOKEN_PUNCTUATION
          let token := rift_token_create ty (ctx.current_position % 65536) 0
          processLoop inp fuel { ctx with
            token_buffer := ctx.token_buffer ++ [token]
            token_count := ctx.token_count + 1
            current_position := ctx.current_position + 1
            column_number := ctx.column_number + 1 }
    else (true, ctx)

/-- `rift_tokenizer_process` (tokenizer_rules.c:471): resets the counters,
runs the scan loop (one token per non-whitespace character, whitespace
skipped), then appends `rift_token_create(TOKEN_EOF, 0, 0)` when capacity
remains.  Returns the success flag with the updated context. -/
def rift_tokenizer_process (ctx : TokenizerContext) : Bool × TokenizerContext :=
  match ctx.input_buffer with
  | none => (false, ctx)
  | some inp =>
    let r := processLoop inp ctx.buffer_length
      { ctx with token_count := 0, token_buffer := [], has_error := false }
    if r.1 then
      let ctx' := r.2
      if ctx'.token_count < ctx'.token_capacity then
        (true, { ctx' with
          token_buffer := ctx'.token_buffer ++ [rift_token_create TOKEN_EOF 0 0]
          token_count := ctx'.token_count + 1 })
      else (true, ctx')
    else (false, r.2)

/-- Convenience composition used by the theorems: fresh session of the
given capacity, input set, processed. -/
def processString (cap : Nat) (s : String) : Bool × TokenizerContext :=
  rift_tokenizer_process (rift_tokenizer_set_input (rift_tokenizer_create cap) s.data)

end Rules

/-! ## Tokenizer session, tokenizer.c variant (`Rift.Core`)

`src/rift-0/src/core/tokenizer.c:48-327`.  This translation unit owns a
growable token array (`realloc` doubling, assumed to succeed) and emits one
token per input character, whitespace included. -/

namespace Core

structure TokenizerContext where
  input_buffer : Option (List Char)
  input_length : Nat
  input_position : Nat
  token_capacity : Nat
  token_count : Nat
  tokens : List TokenTriplet
  has_error : Bool
deriving Repr

/-- `rift_tokenizer_create` (tokenizer.c:48). -/
def rift_tokenizer_create (initial_capacity : Nat) : TokenizerContext :=
  { input_buffer := none
    input_length := 0
    input_position := 0
    token_capacity := if initial_capacity = 0 then RIFT_TOKENIZER_DEFAULT_CAPACITY
      else initial_capacity
    token_count := 0
    tokens := []
    has_error := false }

/-- `rift_tokenizer_set_input` (tokenizer.c:177): copies the buffer. -/
def rift_tokenizer_set_input (ctx : TokenizerContext) (input : List Char) : TokenizerContext :=
  { ctx with
    input_buffer := some input
    input_length := input.length
    input_position := 0 }

/-- The character classification of `rift_tokenizer_process`
(tokenizer.c:299-305): letters, digits, the four whitespace characters,
the four arithmetic operator characters, else punctuation. -/
def classify (ch : Char) : Nat :=
  if 'a' ≤ ch && ch ≤ 'z' then TOKEN_IDENTIFIER
  else if 'A' ≤ ch && ch ≤ 'Z' then TOKEN_IDENTIFIER
  else if '0' ≤ ch && ch ≤ '9' then TOKEN_LITERAL_NUMBER
  else if ch = ' ' || ch = '\t' || ch = '\n' || ch = '\r' then TOKEN_WHITESPACE
  else if ch = '+' || ch = '-' || ch = '*' || ch = '/' then TOKEN_OPERATOR
  else TOKEN_PUNCTUATION

/-- The `while (pos < ctx->input_length)` loop of `rift_tokenizer_process`
(tokenizer.c:281-312) on the state `(pos, capacity, count, tokens)`: the
capacity doubles when full (`realloc` assumed to succeed), then one token
is emitted for the current character — `rift_token_create(type, pos, 0)`
converts the `size_t` position to the `uint16_t` parameter, reducing it
modulo 2^16.  `pos` advances by one per iteration, so `fuel := len` (what
every caller passes, starting from `pos = 0`) never runs out before the
loop condition turns false. -/
def processLoop (inp : List Char) (len : Nat) : Nat → Nat → Nat → Nat → List TokenTriplet →
    Nat × Nat × List TokenTriplet
  | 0, _, cap, cnt, toks => (cap, cnt, toks)
  | fuel + 1, pos, cap, cnt, toks =>
    if pos < len then
      let cap' := if cnt ≥ cap then cap * 2 else cap
      let ch := inp.getD pos (Char.ofNat 0)
      processLoop inp len fuel (pos + 1) cap' (cnt + 1)
        (toks ++ [rift_token_create (classify ch) pos 0])
    else (cap, cnt, toks)

/-- `rift_tokenizer_process` (tokenizer.c:271): per-character scan, then
`rift_token_create(TOKEN_EOF, ctx->input_length, 0)` appended when the
count is still below capacity.  Always returns `true` once the input
buffer is set (the only failure paths are allocation failures). -/
def rift_tokenizer_process (ctx : TokenizerContext) : Bool × TokenizerContext :=
  match ctx.input_buffer with
  | none => (false, ctx)
  | some inp =>
    let r := processLoop inp ctx.input_length ctx.input_length 0 ctx.token_capacity 0 []
    let cap := r.1
    let cnt := r.2.1
    let toks := r.2.2
    if cnt < cap then
      (true, { ctx with
        token_capacity := cap
        token_count := cnt + 1
        tokens := toks ++ [rift_token_create TOKEN_EOF ctx.input_length 0] })
    else
      (true, { ctx with token_capacity := cap, token_count := cnt, tokens := toks })

/-- Fresh session of the given capacity, input set, processed. -/
def processString (cap : Nat) (s : String) : Bool × TokenizerContext :=
  rift_tokenizer_process (rift_tokenizer_set_input (rift_tokenizer_create cap) s.data)

end Core

/-! ## Helper lemmas -/

/-- The single fresh state installed by the `rift_regex_compose_*` functions
is non-final and has no transitions, so running any subject through it
never accepts. -/
theorem composed_start_rejects (l : List Char) :
    rift_dfa_is_accepting_state
      (rift_dfa_process_input (some (rift_dfa_create_state 0 false)) l) = false := by
  cases l with
  | nil => rfl
  | cons c cs => rfl

/-- A conditional whose branches both carry `true` in the first component
has first component `true`. -/
theorem fst_ite_true {c : Prop} [Decidable c] {α : Type} (A B : α) :
    (if c then (true, A) else (true, B)).1 = true := by
  split <;> rfl

/-- Appending one element above every element of a `<`-chain keeps it a
chain. -/
theorem chain_lt_append_singleton {l : List Nat} {x : Nat}
    (hc : List.Chain' (· < ·) l) (hlt : ∀ y ∈ l, y < x) :
    List.Chain' (· < ·) (l ++ [x]) := by
  rw [List.chain'_append]
  refine ⟨hc, List.chain'_singleton x, ?_⟩
  intro a ha b hb
  obtain ⟨hne, rfl⟩ := List.mem_getLast?_eq_getLast ha
  simp only [List.head?_cons, Option.mem_def, Option.some.injEq] at hb
  subst hb
  exact hlt _ (List.getLast_mem hne)

/-- Invariant of the tokenizer_rules.c scan loop: provided the input fits
the 16-bit offset encoding, the loop only ever appends tokens whose kind
is not `TOKEN_EOF` and whose `mem_ptr` equals the (strictly growing)
cursor position, so the output buffer stays strictly increasing in
`mem_ptr`. -/
theorem rulesProcessLoop_ordered (inp : List Char) :
    ∀ (fuel : Nat) (ctx : Rules.TokenizerContext),
      ctx.buffer_length ≤ 65536 →
      (∀ t ∈ ctx.token_buffer, t.mem_ptr < ctx.current_position ∧ t.type ≠ TOKEN_EOF) →
      List.Chain' (· < ·) (ctx.token_buffer.map TokenTriplet.mem_ptr) →
      (∀ t ∈ (Rules.processLoop inp fuel ctx).2.token_buffer, t.type ≠ TOKEN_EOF) ∧
      List.Chain' (· < ·)
        ((Rules.processLoop inp fuel ctx).2.token_buffer.map TokenTriplet.mem_ptr) := by
  intro fuel
  induction fuel with
  | zero =>
    intro ctx hlen hinv hchain
    exact ⟨fun t ht => (hinv t ht).2, hchain⟩
  | succ fuel ih =>
    intro ctx hlen hinv hchain
    simp only [Rules.processLoop]
    by_cases h1 : ctx.current_position < ctx.buffer_length
    · simp only [if_pos h1]
      by_cases h2 : ctx.token_count ≥ ctx.token_capacity
      · simp only [if_pos h2]
        exact ⟨fun t ht => (hinv t ht).2, hchain⟩
      · simp only [if_neg h2]
        by_cases h3 : riftIsSpace (inp.getD ctx.current_position (Char.ofNat 0)) = true
        · simp only [h3, if_true]
          by_cases h4 : inp.getD ctx.current_position (Char.ofNat 0) = '\n'
          · simp only [if_pos h4]
            exact ih _ hlen (fun t ht => ⟨Nat.lt_succ_of_lt (hinv t ht).1, (hinv t ht).2⟩)
              hchain
          · simp only [if_neg h4]
            exact ih _ hlen (fun t ht => ⟨Nat.lt_succ_of_lt (hinv t ht).1, (hinv t ht).2⟩)
              hchain
        · simp only [Bool.not_eq_true] at h3
          simp only [h3, Bool.false_eq_true, if_false]
          have hpos : ctx.current_position % 65536 = ctx.current_position :=
            Nat.mod_eq_of_lt (by omega)
          apply ih
          · exact hlen
          · intro t ht
            rcases List.mem_append.mp ht with hold | hnew
            · exact ⟨Nat.lt_succ_of_lt (hinv t hold).1, (hinv t hold).2⟩
            · simp only [List.mem_singleton] at hnew
              subst hnew
              constructor
              · simp only [rift_token_create]
                omega
              · simp only [rift_token_create, TOKEN_EOF]
                split
                · simp [TOKEN_IDENTIFIER]
                · split
                  · simp [TOKEN_LITERAL_NUMBER]
                  · simp [TOKEN_PUNCTUATION]
          · rw [List.map_append]
            apply chain_lt_append_singleton hchain
            intro y hy
            rcases List.mem_map.mp hy with ⟨t, htmem, rfl⟩
            have := (hinv t htmem).1
            simp only [List.map_cons, List.map_nil, rift_token_create]
            omega
    · simp only [if_neg h1]
      exact ⟨fun t ht => (hinv t ht).2, hchain⟩

/-- Closed form of the tokenizer.c scan loop: with sufficient fuel (every
caller passes `len` starting from position 0) it appends exactly one token
per remaining input position, created at that position. -/
theorem coreProcessLoop_tokens (inp : List Char) (len : Nat) :
    ∀ (fuel pos cap cnt : Nat) (toks : List TokenTriplet), len - pos ≤ fuel →
      (Core.processLoop inp len fuel pos cap cnt toks).2.2 =
        toks ++ (List.range' pos (len - pos)).map
          (fun p => rift_token_create (Core.classify (inp.getD p (Char.ofNat 0))) p 0) := by
  intro fuel
  induction fuel with
  | zero =>
    intro pos cap cnt toks hle
    have h0 : len - pos = 0 := by omega
    simp [Core.processLoop, h0]
  | succ fuel ih =>
    intro pos cap cnt toks hle
    by_cases h : pos < len
    · have hsub : len - pos = (len - (pos + 1)) + 1 := by omega
      simp only [Core.processLoop, if_pos h]
      rw [ih (pos + 1) _ _ _ (by omega), hsub, List.range'_succ]
      simp [List.append_assoc]
    · have h0 : len - pos = 0 := by omega
      simp [Core.processLoop, h, h0]

/-! ## Claim theorems -/

/-- C1 (code_bug evidence): every pattern built by the four composition
functions matches nothing — `rift_regex_match` on it returns `false` for
every subject — even though its constituents can match, so none of the
AND/OR/XOR/NAND boolean truth tables is implemented.  The last conjunct
shows a constituent (`rift_regex_compile "x"`) that does match the subject
`"x"`, on which AND, OR and XOR of the pattern with itself must match per
the claim. -/
theorem regex_compose_boolean_semantics_stubbed :
    (∀ a b inp, rift_regex_match (rift_regex_compose_and a b) inp = false) ∧
    (∀ a b inp, rift_regex_match (rift_regex_compose_or a b) inp = false) ∧
    (∀ a b inp, rift_regex_match (rift_regex_compose_xor a b) inp = false) ∧
    (∀ a b inp, rift_regex_match (rift_regex_compose_nand a b) inp = false) ∧
    rift_regex_match (rift_regex_compile (some "x") 0) (some ['x']) = true := by
  refine ⟨?_, ?_, ?_, ?_, rfl⟩ <;>
  · intro a b inp
    cases a <;> cases b <;> cases inp <;>
      first
        | rfl
        | exact composed_start_rejects _

/-- C2 counterexample: on the one-state automaton with no transitions and
no fail state (a final state, even), `rift_dfa_process_input` returns
`NULL` on the input `"b"`, although the spec's `run` would stop and return
the last state reached — which is final here, so the code does not even
communicate non-acceptance by a non-final state. -/
theorem dfa_process_input_returns_null_counterexample :
    rift_dfa_process_input (some (rift_dfa_create_state 0 true)) ['b'] = none ∧
    rift_run_spec (rift_dfa_create_state 0 true) ['b'] = rift_dfa_create_state 0 true ∧
    (rift_dfa_create_state 0 true).is_final = true :=
  ⟨rfl, rfl, rfl⟩

/-- C2 (amended): `rift_dfa_process_input` CAN fail — it returns `NULL`
when it reaches a state with no matching labelled transition and no fail
transition while input remains — but whenever it does return a state, that
state is exactly the one the spec's total `run` (follow the labelled
transition on a character match, else `fail`, else stop) would return. -/
theorem dfa_process_input_agrees_or_fails (s : DFAState) (cs : List Char) :
    rift_dfa_process_input (some s) cs = none ∨
    rift_dfa_process_input (some s) cs = some (rift_run_spec s cs) := by
  induction cs generalizing s with
  | nil => exact Or.inr rfl
  | cons c cs ih =>
    cases hn : s.next_state with
    | some n =>
      by_cases htc : s.transition_char = c
      · simpa [rift_dfa_process_input, rift_run_spec, hn, htc] using ih n
      · cases hf : s.fail_state with
        | some f => simpa [rift_dfa_process_input, rift_run_spec, hn, htc, hf] using ih f
        | none => exact Or.inl (by simp [rift_dfa_process_input, hn, htc, hf])
    | none =>
      cases hf : s.fail_state with
      | some f => simpa [rift_dfa_process_input, rift_run_spec, hn, hf] using ih f
      | none => exact Or.inl (by simp [rift_dfa_process_input, hn, hf])

/-- C3: for every in-range triple, the fields of the token built by
`rift_token_create` project back to exactly that triple, the packed word
fits in 32 bits (4 bytes), and the word decodes back to the same token. -/
theorem token_codec_roundtrip (kind offset aux : Nat)
    (hk : kind < 256) (ho : offset < 65536) (ha : aux < 256) :
    (rift_token_create kind offset aux).type = kind ∧
    (rift_token_create kind offset aux).mem_ptr = offset ∧
    (rift_token_create kind offset aux).value = aux ∧
    (rift_token_create kind offset aux).toWord < 4294967296 ∧
    TokenTriplet.ofWord (rift_token_create kind offset aux).toWord =
      rift_token_create kind offset aux := by
  simp only [rift_token_create, TokenTriplet.toWord, TokenTriplet.ofWord,
    TokenTriplet.mk.injEq]
  omega

/-- Witness for C3 at the concrete triple `(3, 1234, 7)`. -/
theorem token_codec_roundtrip_witness :
    (rift_token_create 3 1234 7).type = 3 ∧
    (rift_token_create 3 1234 7).mem_ptr = 1234 ∧
    (rift_token_create 3 1234 7).value = 7 ∧
    (rift_token_create 3 1234 7).toWord < 4294967296 ∧
    TokenTriplet.ofWord (rift_token_create 3 1234 7).toWord =
      rift_token_create 3 1234 7 :=
  token_codec_roundtrip 3 1234 7 (by decide) (by decide) (by decide)

/-- C4 counterexample: the token `(kind 1, offset 5000, aux 0)` has its
kind inside the closed enumeration and its offset within 65535, so the
claim says `rift_token_is_valid` accepts it; the code rejects it, because
the offset bound actually checked is `RIFT_MAX_TOKEN_LENGTH = 4096`. -/
theorem token_is_valid_counterexample :
    (1 : Nat) < TOKEN_MAX ∧ (5000 : Nat) ≤ 65535 ∧
    rift_token_is_valid (some (rift_token_create 1 5000 0)) = false := by
  decide

/-- C4 (amended): `rift_token_is_valid` accepts a non-null token exactly
when its kind is strictly below `TOKEN_MAX = 255` (so the maximum value
255 itself is rejected) and its offset is at most
`RIFT_MAX_TOKEN_LENGTH = 4096` (not 65535); a null token is rejected. -/
theorem token_is_valid_bounds (t : TokenTriplet) :
    (rift_token_is_valid (some t) = true ↔
      t.type < TOKEN_MAX ∧ t.mem_ptr ≤ RIFT_MAX_TOKEN_LENGTH) ∧
    rift_token_is_valid none = false := by
  constructor
  · simp only [rift_token_is_valid, TOKEN_MAX, RIFT_MAX_TOKEN_LENGTH]
    split <;> rename_i h1
    · simp; omega
    · split <;> rename_i h2
      · simp; omega
      · simp; omega
  · rfl

/-- C6 counterexample: compiling the empty pattern succeeds — a Pattern
object is returned — although the claim requires an error result. -/
theorem regex_compile_empty_counterexample :
    ("" : String).length = 0 ∧
    (rift_regex_compile (some "") 0).isSome = true := by
  exact ⟨rfl, rfl⟩

/-- C6 (amended): `rift_regex_compile` fails only on a null pattern
pointer (allocation aside); it performs no emptiness and no maximum-length
check, so every non-null pattern text — empty or arbitrarily long —
compiles to a Pattern object. -/
theorem regex_compile_null_only_failure (p : String) (f : Nat) :
    (rift_regex_compile (some p) f).isSome = true ∧
    rift_regex_compile none f = none :=
  ⟨rfl, rfl⟩

/-- C9: `rift_token_set_flags` rewrites only the `value` field — with the
flag byte reduced modulo 2^8 — leaving `type` and `mem_ptr` unchanged, and
`rift_token_get_flags` then reads that byte back; on a null token,
`set_flags` is a no-op and `get_flags` returns `TOKEN_FLAG_NONE`. -/
theorem token_flags_frame (t : TokenTriplet) (f : Nat) :
    rift_token_set_flags (some t) f =
      some { type := t.type, mem_ptr := t.mem_ptr, value := f % 256 } ∧
    rift_token_get_flags (rift_token_set_flags (some t) f) = f % 256 ∧
    rift_token_set_flags none f = none ∧
    rift_token_get_flags none = TOKEN_FLAG_NONE := by
  refine ⟨rfl, ?_, rfl, rfl⟩
  simp only [rift_token_set_flags, rift_token_get_flags]
  omega

/-- C7 counterexample: neither implementation of
`rift_tokenizer_process` produces the claimed kind sequence
`[IDENTIFIER, WHITESPACE, IDENTIFIER, WHITESPACE, OPERATOR, WHITESPACE,
LITERAL_NUMBER, DELIMITER, EOF]` for `"let x = 42;"` (reading the
nonexistent DELIMITER kind as `TOKEN_PUNCTUATION`, the nearest member of
the enumeration). -/
theorem scenario_a_counterexample :
    (Rules.processString 0 "let x = 42;").2.token_buffer.map TokenTriplet.type ≠
      [TOKEN_IDENTIFIER, TOKEN_WHITESPACE, TOKEN_IDENTIFIER, TOKEN_WHITESPACE,
        TOKEN_OPERATOR, TOKEN_WHITESPACE, TOKEN_LITERAL_NUMBER, TOKEN_PUNCTUATION,
        TOKEN_EOF] ∧
    (Core.processString 0 "let x = 42;").2.tokens.map TokenTriplet.type ≠
      [TOKEN_IDENTIFIER, TOKEN_WHITESPACE, TOKEN_IDENTIFIER, TOKEN_WHITESPACE,
        TOKEN_OPERATOR, TOKEN_WHITESPACE, TOKEN_LITERAL_NUMBER, TOKEN_PUNCTUATION,
        TOKEN_EOF] := by
  decide

/-- C7 (amended): both engines tokenize `"let x = 42;"` one character at a
time.  The tokenizer.c engine emits a token per character, whitespace
included, with `'='` and `';'` classified `PUNCTUATION` (there is no
DELIMITER kind and `'='` is not an operator character), ending with `EOF`
at offset 11; offsets are strictly increasing 0..11.  The tokenizer_rules.c
engine skips whitespace, emitting tokens at offsets 0,1,2,4,6,8,9,10
followed by `EOF` at offset 0. -/
theorem scenario_a_actual :
    (Core.processString 0 "let x = 42;").1 = true ∧
    (Core.processString 0 "let x = 42;").2.tokens =
      [⟨1, 0, 0⟩, ⟨1, 1, 0⟩, ⟨1, 2, 0⟩, ⟨7, 3, 0⟩, ⟨1, 4, 0⟩, ⟨7, 5, 0⟩,
        ⟨6, 6, 0⟩, ⟨7, 7, 0⟩, ⟨3, 8, 0⟩, ⟨3, 9, 0⟩, ⟨6, 10, 0⟩, ⟨9, 11, 0⟩] ∧
    List.Chain' (· < ·)
      ((Core.processString 0 "let x = 42;").2.tokens.map TokenTriplet.mem_ptr) ∧
    (Rules.processString 0 "let x = 42;").1 = true ∧
    (Rules.processString 0 "let x = 42;").2.token_buffer =
      [⟨1, 0, 0⟩, ⟨1, 1, 0⟩, ⟨1, 2, 0⟩, ⟨1, 4, 0⟩, ⟨6, 6, 0⟩, ⟨3, 8, 0⟩,
        ⟨3, 9, 0⟩, ⟨6, 10, 0⟩, ⟨9, 0, 0⟩] := by
  refine ⟨rfl, rfl, ?_, rfl, rfl⟩
  show List.Chain' (· < ·) [0, 1, 2, 3, 4, 5, 6, 7, 8, 9, 10, 11]
  norm_num [List.chain'_cons]

/-- C8: tokenizing the empty input in a fresh session of any requested
capacity succeeds and yields exactly one token, `TOKEN_EOF` at offset 0 —
in both implementations of `rift_tokenizer_process`. -/
theorem empty_input_single_eof (cap : Nat) :
    (Rules.rift_tokenizer_process
      (Rules.rift_tokenizer_set_input (Rules.rift_tokenizer_create cap) [])).1 = true ∧
    (Rules.rift_tokenizer_process
      (Rules.rift_tokenizer_set_input (Rules.rift_tokenizer_create cap) [])).2.token_buffer =
      [rift_token_create TOKEN_EOF 0 0] ∧
    (Core.rift_tokenizer_process
      (Core.rift_tokenizer_set_input (Core.rift_tokenizer_create cap) [])).1 = true ∧
    (Core.rift_tokenizer_process
      (Core.rift_tokenizer_set_input (Core.rift_tokenizer_create cap) [])).2.tokens =
      [rift_token_create TOKEN_EOF 0 0] := by
  by_cases h : cap = 0
  · subst h; refine ⟨rfl, rfl, rfl, rfl⟩
  · have h1 : 0 < cap := Nat.pos_of_ne_zero h
    constructor
    · simp [Rules.rift_tokenizer_process, Rules.rift_tokenizer_set_input,
        Rules.rift_tokenizer_create, Rules.processLoop, h1]
    constructor
    · simp [Rules.rift_tokenizer_process, Rules.rift_tokenizer_set_input,
        Rules.rift_tokenizer_create, Rules.processLoop, h1]
    constructor
    · simp [Core.rift_tokenizer_process, Core.rift_tokenizer_set_input,
        Core.rift_tokenizer_create, Core.processLoop, h, h1]
    · simp [Core.rift_tokenizer_process, Core.rift_tokenizer_set_input,
        Core.rift_tokenizer_create, Core.processLoop, h, h1]

/-- C5 counterexample: a successful tokenizer_rules.c `rift_tokenizer_process`
call on `"ab"` leaves the buffer offsets `[0, 1, 0]` — the terminal EOF
token carries offset 0, so the offsets are not strictly increasing from the
first token through the EOF token. -/
theorem rules_eof_offset_counterexample :
    (Rules.processString 0 "ab").1 = true ∧
    (Rules.processString 0 "ab").2.token_buffer.map TokenTriplet.mem_ptr = [0, 1, 0] ∧
    ¬ List.Chain' (· < ·)
      ((Rules.processString 0 "ab").2.token_buffer.map TokenTriplet.mem_ptr) := by
  refine ⟨rfl, rfl, ?_⟩
  show ¬ List.Chain' (· < ·) [0, 1, 0]
  norm_num [List.chain'_cons]

/-- C5 (amended): within one successful `rift_tokenizer_process` call
(tokenizer_rules.c), for a session whose input fits the 16-bit offset
encoding, the non-EOF tokens appear in strictly increasing `mem_ptr`
order; the terminal `TOKEN_EOF` token carries `mem_ptr = 0` (not the end
position), so the strict increase holds up to, but not through, the EOF
token. -/
theorem rules_tokens_strictly_increasing (ctx : Rules.TokenizerContext)
    (hlen : ctx.buffer_length ≤ 65536)
    (hok : (Rules.rift_tokenizer_process ctx).1 = true) :
    List.Chain' (· < ·)
      (((Rules.rift_tokenizer_process ctx).2.token_buffer.filter
        (fun t => t.type != TOKEN_EOF)).map TokenTriplet.mem_ptr) ∧
    ∀ t ∈ (Rules.rift_tokenizer_process ctx).2.token_buffer,
      t.type = TOKEN_EOF → t.mem_ptr = 0 := by
  rcases hin : ctx.input_buffer with _ | inp
  · simp only [Rules.rift_tokenizer_process, hin] at hok
    exact absurd hok (by simp)
  · simp only [Rules.rift_tokenizer_process, hin] at hok ⊢
    obtain ⟨hne, hchain⟩ := rulesProcessLoop_ordered inp ctx.buffer_length
      { ctx with
        input_buffer := some inp
        token_count := 0
        token_buffer := []
        has_error := false }
      (by simpa using hlen) (by simp) (by simp)
    cases hsplit : Rules.processLoop inp ctx.buffer_length
      { ctx with
        input_buffer := some inp
        token_count := 0
        token_buffer := []
        has_error := false } with
    | mk ok ctx' =>
      rw [hsplit] at hne hchain hok
      cases ok with
      | false => exact absurd hok (by simp)
      | true =>
        dsimp only at hne hchain hok ⊢
        rw [if_pos rfl] at hok ⊢
        by_cases hcnt : ctx'.token_count < ctx'.token_capacity
        · simp only [if_pos hcnt]
          constructor
          · rw [List.filter_append, List.filter_eq_self.mpr
              (fun t ht => by simpa [bne_iff_ne] using hne t ht)]
            have heof : List.filter (fun t => t.type != TOKEN_EOF)
                [rift_token_create TOKEN_EOF 0 0] = [] := by
              simp [rift_token_create, TOKEN_EOF]
            rw [heof, List.append_nil]
            exact hchain
          · intro t ht _
            rcases List.mem_append.mp ht with hmem | hmem
            · exact absurd (by assumption) (hne t hmem)
            · simp only [List.mem_singleton] at hmem
              subst hmem
              rfl
        · simp only [if_neg hcnt]
          constructor
          · rw [List.filter_eq_self.mpr
              (fun t ht => by simpa [bne_iff_ne] using hne t ht)]
            exact hchain
          · intro t ht h
            exact absurd h (hne t ht)

/-- Witness for C5 at the session `create 0` with input `"ab"`. -/
theorem rules_tokens_strictly_increasing_witness :
    (Rules.rift_tokenizer_set_input (Rules.rift_tokenizer_create 0)
      "ab".data).buffer_length ≤ 65536 ∧
    (Rules.rift_tokenizer_process (Rules.rift_tokenizer_set_input
      (Rules.rift_tokenizer_create 0) "ab".data)).1 = true ∧
    (List.Chain' (· < ·)
      (((Rules.rift_tokenizer_process (Rules.rift_tokenizer_set_input
        (Rules.rift_tokenizer_create 0) "ab".data)).2.token_buffer.filter
          (fun t => t.type != TOKEN_EOF)).map TokenTriplet.mem_ptr) ∧
    ∀ t ∈ (Rules.rift_tokenizer_process (Rules.rift_tokenizer_set_input
        (Rules.rift_tokenizer_create 0) "ab".data)).2.token_buffer,
      t.type = TOKEN_EOF → t.mem_ptr = 0) :=
  ⟨by decide, by decide,
    rules_tokens_strictly_increasing _ (by decide) (by decide)⟩

/-- C10: the tokenizer.c `rift_tokenizer_process` succeeds on every input
longer than 65535 bytes (its token array grows by doubling), and the token
emitted for position `i` carries `mem_ptr = i mod 2^16` — the `size_t`
cursor is truncated to the 16-bit field, silently aliasing the offsets of
earlier tokens for positions at and beyond 65536. -/
theorem core_offsets_truncated_mod_65536 (cap : Nat) (inp : List Char)
    (hlen : inp.length > 65535) :
    (Core.rift_tokenizer_process
      (Core.rift_tokenizer_set_input (Core.rift_tokenizer_create cap) inp)).1 = true ∧
    ∀ i, i < inp.length →
      ((Core.rift_tokenizer_process
        (Core.rift_tokenizer_set_input (Core.rift_tokenizer_create cap) inp)).2.tokens.get?
          i).map TokenTriplet.mem_ptr = some (i % 65536) := by
  constructor
  · simp only [Core.rift_tokenizer_process, Core.rift_tokenizer_set_input,
      Core.rift_tokenizer_create]
    exact fst_ite_true _ _
  · intro i hi
    simp only [Core.rift_tokenizer_process, Core.rift_tokenizer_set_input,
      Core.rift_tokenizer_create]
    generalize (if cap = 0 then RIFT_TOKENIZER_DEFAULT_CAPACITY else cap) = C
    have htoks := coreProcessLoop_tokens inp inp.length inp.length 0 C 0 [] (by omega)
    rw [htoks]
    have hilt : i < ((List.range' 0 (inp.length - 0)).map
        (fun p => rift_token_create (Core.classify (inp.getD p (Char.ofNat 0))) p 0)).length := by
      simpa [List.length_map, List.length_range'] using hi
    split
    · dsimp only
      rw [List.nil_append, List.get?_eq_getElem?, List.getElem?_append_left hilt,
        List.getElem?_map, List.getElem?_range' _ _ (by simpa using hi)]
      simp [rift_token_create]
    · dsimp only
      rw [List.nil_append, List.get?_eq_getElem?, List.getElem?_map,
        List.getElem?_range' _ _ (by simpa using hi)]
      simp [rift_token_create]

/-- Witness for C10 at a 65537-byte input. -/
theorem core_offsets_truncated_mod_65536_witness :
    (List.replicate 65537 'a').length > 65535 ∧
    ((Core.rift_tokenizer_process (Core.rift_tokenizer_set_input
      (Core.rift_tokenizer_create 0) (List.replicate 65537 'a'))).1 = true ∧
    ∀ i, i < (List.replicate 65537 'a').length →
      ((Core.rift_tokenizer_process (Core.rift_tokenizer_set_input
        (Core.rift_tokenizer_create 0) (List.replicate 65537 'a'))).2.tokens.get?
          i).map TokenTriplet.mem_ptr = some (i % 65536)) :=
  ⟨by norm_num, core_offsets_truncated_mod_65536 0 _ (by norm_num)⟩

end Rift
